import Mathlib

/-!
Verification of `src/settings/ui/customIconPack.ts` of obsidian-iconize.

The file is UI event wiring: a drag-and-drop highlight state machine
(`highlight` / `unhighlight`, lines 44-69) and a set of async button /
drop handlers (`display`, lines 71-211) over opaque external
collaborators (`createFile`, `addIconToIconPack`, ...).

We embed, straight from the source:
  * the drag state (`dragTargetElement`, the overlay node's DOM parent,
    the `iconize-dragover` class set, the `closeTimer`) and the three
    transitions `highlight`, `unhighlight`, `fireCloseTimer`;
  * `normalizeIconPackName` (lines 35-37), with the host's
    Unicode-aware `String.prototype.toLowerCase` as an explicit
    external parameter, like the other runtime collaborators;
  * the "Add icon pack" button handler (lines 81-98) as a function from
    the input text and the external `doesIconPackExist` oracle to the
    record of its observable effects;
  * the file-picker `onchange` handler (lines 115-125), the refresh
    handler (lines 132-145) and the `drop` handler (lines 183-209),
    each as a function from the handled file list (and opaque external
    read results) to the record of effects, processed in source order.

Rows are identified by natural numbers; external calls are recorded as
effect lists rather than performed.
-/

/-! ## Drag-and-drop state machine (lines 44-69) -/

/-- State of the drag-over highlight subsystem of one
`CustomIconPackSetting` instance.  `dragTargetElement` is the field of
the same name (`Option` for `undefined`); `overlayParent` is the DOM
parent of the shared `dragOverElement` node (`none` when detached; a
DOM node has at most one parent, and `appendChild` moves it);
`classes` is the set of elements currently bearing the
`iconize-dragover` class; `closeTimer` is the pending 100ms timeout,
recorded with the element `el` its callback captured (`none` when no
timer is pending - `clearTimeout` on an absent timer is a no-op). -/
structure DragState where
  dragTargetElement : Option Nat
  overlayParent : Option Nat
  classes : List Nat
  closeTimer : Option Nat
deriving Repr, DecidableEq

/-- Fresh component: no owner, overlay detached, no classes, no timer. -/
def initDragState : DragState := ⟨none, none, [], none⟩

/-- `classList.add`: set semantics, no duplicate entries. -/
def addClass (el : Nat) (cs : List Nat) : List Nat :=
  if el ∈ cs then cs else el :: cs

/-- `highlight(el)` (lines 44-52): `clearTimeout(this.closeTimer)`;
then, only if `this.dragTargetElement` is unset, append the overlay to
`el`, add the class and take ownership. -/
def highlight (el : Nat) (s : DragState) : DragState :=
  let s := { s with closeTimer := none }
  match s.dragTargetElement with
  | none =>
    { s with
      overlayParent := some el
      classes := addClass el s.classes
      dragTargetElement := some el }
  | some _ => s

/-- `unhighlight(target, el)` (lines 54-69): if an owner exists and is
not `target`, `removeChild` the overlay from it (the DOM throws when
the overlay is not its child, aborting the handler before the class
removal and the ownership clear), remove its class and clear ownership;
then `clearTimeout` and start a fresh 100ms timer capturing `el`. -/
def unhighlight (target el : Nat) (s : DragState) : DragState :=
  match s.dragTargetElement with
  | some t =>
    if t ≠ target then
      if s.overlayParent = some t then
        { s with
          overlayParent := none
          classes := s.classes.erase t
          dragTargetElement := none
          closeTimer := some el }
      else s
    else { s with closeTimer := some el }
  | none => { s with closeTimer := some el }

/-- The 100ms timeout callback (lines 62-68) firing: consume the timer;
if `this.dragTargetElement` is set, `el.removeChild` the overlay (the
DOM throws when the overlay is not a child of the captured `el`,
aborting before the class removal and the ownership clear), remove
`el`'s class and clear ownership. -/
def fireCloseTimer (s : DragState) : DragState :=
  match s.closeTimer with
  | none => s
  | some el =>
    let s0 := { s with closeTimer := none }
    match s0.dragTargetElement with
    | some _ =>
      if s0.overlayParent = some el then
        { s0 with
          overlayParent := none
          classes := s0.classes.erase el
          dragTargetElement := none }
      else s0
    | none => s0

/-! ## C3: single overlay ownership -/

/-- Claim C3: at every instant at most one row holds the shared overlay
node, and for the sequence `highlight rowA; highlight rowB` with no
intervening `unhighlight`, starting from a fresh component, the overlay
is attached only to `rowA` - both after the first call and after the
second - and is never attached to `rowB`; ownership stays with `rowA`. -/
theorem c3_single_overlay_owner (a b : Nat) (hab : a ≠ b) :
    (∀ e, (highlight a initDragState).overlayParent = some e ↔ e = a) ∧
    (∀ e, (highlight b (highlight a initDragState)).overlayParent = some e ↔ e = a) ∧
    (highlight b (highlight a initDragState)).overlayParent ≠ some b ∧
    (highlight b (highlight a initDragState)).dragTargetElement = some a ∧
    (∀ s : DragState, ∀ e₁ e₂, s.overlayParent = some e₁ →
      s.overlayParent = some e₂ → e₁ = e₂) := by
  refine ⟨?_, ?_, ?_, rfl, ?_⟩
  · intro e
    simp [highlight, initDragState]
    exact comm
  · intro e
    simp [highlight, initDragState]
    exact comm
  · simp [highlight, initDragState]
    exact hab
  · intro s e₁ e₂ h₁ h₂
    rw [h₁] at h₂
    exact (Option.some.injEq _ _ ▸ h₂)

/-- Witness for C3 at rows 0 and 1. -/
theorem c3_single_overlay_owner_witness :
    (0 : Nat) ≠ 1 ∧
      (highlight 1 (highlight 0 initDragState)).overlayParent ≠ some 1 := by
  exact ⟨by decide, (c3_single_overlay_owner 0 1 (by decide)).2.2.1⟩

/-! ## C1: what happens to the previous owner on a new highlight -/

/-- Counterexample to claim C1 as stated: with rowA = 0 owning the
overlay, the call `highlight 1` does NOT un-highlight row 0 - the
overlay stays attached to row 0, the `iconize-dragover` class stays on
row 0 and ownership is not cleared - and row 1 does not become the
highlighted element. -/
theorem c1_counterexample :
    ¬ ((highlight 1 (highlight 0 initDragState)).overlayParent ≠ some 0 ∧
       (highlight 1 (highlight 0 initDragState)).dragTargetElement ≠ some 0 ∧
       0 ∉ (highlight 1 (highlight 0 initDragState)).classes ∧
       (highlight 1 (highlight 0 initDragState)).dragTargetElement = some 1) := by
  decide

/-- Claim C1, amended: a call to `highlight rowB` while another element
`rowA` currently holds the shared overlay only cancels the pending
release timer; `rowA` keeps the overlay, its class and ownership, and
`rowB` does not become the highlighted element.  The previous owner is
instead released - overlay detached, class removed, ownership cleared,
immediately - by `unhighlight` when it runs with a target different
from `rowA`. -/
theorem c1_highlight_keeps_previous_owner (a b : Nat) (s : DragState)
    (hown : s.dragTargetElement = some a) :
    highlight b s = { s with closeTimer := none } ∧
    (∀ t, t ≠ a → s.overlayParent = some a →
      (unhighlight t t s).overlayParent = none ∧
      (unhighlight t t s).dragTargetElement = none ∧
      (unhighlight t t s).classes = s.classes.erase a ∧
      (unhighlight t t s).closeTimer = some t) := by
  constructor
  · simp [highlight, hown]
  · intro t ht hpar
    have hne : a ≠ t := fun h => ht h.symm
    simp [unhighlight, hown, hne, hpar]

/-- Witness for the amended C1: rowA = 0 owns the overlay after
`highlight 0`; `highlight 1` only clears the timer, and
`unhighlight 1 1` releases row 0 immediately. -/
theorem c1_highlight_keeps_previous_owner_witness :
    (highlight 0 initDragState).dragTargetElement = some 0 ∧
    highlight 1 (highlight 0 initDragState)
      = { highlight 0 initDragState with closeTimer := none } ∧
    (unhighlight 1 1 (highlight 0 initDragState)).overlayParent = none ∧
    (unhighlight 1 1 (highlight 0 initDragState)).dragTargetElement = none := by
  refine ⟨rfl, ?_, ?_, ?_⟩
  · exact (c1_highlight_keeps_previous_owner 0 1 (highlight 0 initDragState) rfl).1
  · exact ((c1_highlight_keeps_previous_owner 0 1 (highlight 0 initDragState) rfl).2
      1 (by decide) rfl).1
  · exact ((c1_highlight_keeps_previous_owner 0 1 (highlight 0 initDragState) rfl).2
      1 (by decide) rfl).2.1

/-! ## C4: debounce cancellation -/

/-- Claim C4: for a row that owns the overlay, `unhighlight row row`
followed by `highlight row` before the 100ms timer fires cancels the
pending release: the intermediate state carries a pending timer, the
final state carries none, and the overlay stays attached to the row
with ownership and classes intact - the whole sequence only clears the
timer field. -/
theorem c4_debounce_cancellation (a : Nat) (s : DragState)
    (hown : s.dragTargetElement = some a) :
    (unhighlight a a s).closeTimer = some a ∧
    highlight a (unhighlight a a s) = { s with closeTimer := none } := by
  constructor
  · simp [unhighlight, hown]
  · simp [unhighlight, hown, highlight]

/-- Witness for C4 at row 0, from the state where row 0 was just
highlighted: the overlay stays attached to row 0 and ownership is kept. -/
theorem c4_debounce_cancellation_witness :
    (highlight 0 initDragState).dragTargetElement = some 0 ∧
    (unhighlight 0 0 (highlight 0 initDragState)).closeTimer = some 0 ∧
    highlight 0 (unhighlight 0 0 (highlight 0 initDragState))
      = { highlight 0 initDragState with closeTimer := none } := by
  refine ⟨rfl, ?_, ?_⟩
  · exact (c4_debounce_cancellation 0 (highlight 0 initDragState) rfl).1
  · exact (c4_debounce_cancellation 0 (highlight 0 initDragState) rfl).2

/-! ## normalizeIconPackName (lines 35-37) -/

/-- The character class of the JavaScript regex `\s`. -/
def isJsWhitespace (c : Char) : Bool :=
  c == '\t' || c == '\n' || c.val == 0x0b || c.val == 0x0c || c == '\r' ||
  c == ' ' || c.val == 0xa0 || c.val == 0x1680 ||
  (0x2000 ≤ c.val && c.val ≤ 0x200a) ||
  c.val == 0x2028 || c.val == 0x2029 || c.val == 0x202f ||
  c.val == 0x205f || c.val == 0x3000 || c.val == 0xfeff

/-- `value.replace(/\s/g, '-')`: every `\s` character becomes `'-'`.
The class `\s` is single-character and context-free, so the replacement
is a character map (and no `\s` character is a surrogate half, so
mapping Unicode scalars is exact). -/
def jsReplaceWsWithHyphen (s : String) : String :=
  ⟨s.data.map (fun c => if isJsWhitespace c then '-' else c)⟩

/-- `normalizeIconPackName(value)` (lines 35-37):
`value.toLowerCase().replace(/\s/g, '-')`.  `toLow` is the host's
Unicode-aware `String.prototype.toLowerCase`, a function of the
runtime environment (like `doesIconPackExist` or
`vault.adapter.read`), passed in as a parameter: nothing is assumed
about it beyond the explicit hypotheses of the individual theorems. -/
def normalizeIconPackName (toLow : String → String) (value : String) :
    String :=
  jsReplaceWsWithHyphen (toLow value)

/-- The ASCII fragment of the host lowercase map, used only to
instantiate `toLow` at concrete ASCII inputs in witnesses (on ASCII
strings the Unicode lowercase map agrees with the ASCII one). -/
def asciiToLowerCase (s : String) : String := ⟨s.data.map Char.toLower⟩

/-- Characters outside `\s` pass through the hyphenate map unchanged. -/
theorem nonWs_chars_fixed (l : List Char)
    (h : ∀ c ∈ l, isJsWhitespace c = false) :
    l.map (fun c => if isJsWhitespace c then '-' else c) = l := by
  induction l with
  | nil => rfl
  | cons c cs ih =>
    have hc := h c (List.mem_cons_self c cs)
    simp [hc, ih (fun x hx => h x (List.mem_cons_of_mem c hx))]

/-- Claim C7: for any host lowercase map `toLow`,
`normalizeIconPackName` lowercases its input and then replaces every
whitespace character with a hyphen (first conjunct); since the host
lowercases `"My Pack"` to `"my pack"` (a fact of the Unicode mapping on
ASCII), `normalizeIconPackName "My Pack" = "my-pack"` (second
conjunct); and every input already in normalized form - fixed by the
host lowercase map (in particular containing no uppercase letter) and
containing no whitespace character - is returned unchanged (third
conjunct, idempotence). -/
theorem c7_normalize_iconpack_name (toLow : String → String) :
    (∀ value, (normalizeIconPackName toLow value).data
      = (toLow value).data.map
          (fun c => if isJsWhitespace c then '-' else c)) ∧
    (toLow "My Pack" = "my pack" →
      normalizeIconPackName toLow "My Pack" = "my-pack") ∧
    (∀ s : String, toLow s = s →
      (∀ c ∈ s.data, isJsWhitespace c = false) →
      normalizeIconPackName toLow s = s) := by
  refine ⟨fun value => rfl, ?_, ?_⟩
  · intro h
    rw [normalizeIconPackName, h]
    decide
  · intro s hfix hws
    cases s with
    | mk data =>
      rw [normalizeIconPackName, hfix]
      exact congrArg String.mk (nonWs_chars_fixed data hws)

/-- Witness for C7 at the ASCII inputs `"My Pack"` (mapped to
`"my-pack"`) and `"my-pack"` (already normalized, returned unchanged),
with the lowercase-map hypotheses discharged by computation on the
ASCII fragment. -/
theorem c7_normalize_iconpack_name_witness :
    asciiToLowerCase "My Pack" = "my pack" ∧
    normalizeIconPackName asciiToLowerCase "My Pack" = "my-pack" ∧
    asciiToLowerCase "my-pack" = "my-pack" ∧
    normalizeIconPackName asciiToLowerCase "my-pack" = "my-pack" := by
  refine ⟨by decide, ?_, by decide, ?_⟩
  · exact (c7_normalize_iconpack_name asciiToLowerCase).2.1 (by decide)
  · exact (c7_normalize_iconpack_name asciiToLowerCase).2.2 "my-pack"
      (by decide) (by decide)

/-! ## "Add icon pack" button handler (lines 81-98) -/

/-- Observable effects of one run of the "Add icon pack" click handler:
the directory name passed to `createCustomIconPackDirectory` (if any),
every `new Notice` message in order, the value passed to
`textComponent.setValue` (if any), and the number of `refreshDisplay`
invocations. -/
structure CreateEffects where
  createdDir : Option String
  notices : List String
  inputSetTo : Option String
  refreshCount : Nat
deriving Repr, DecidableEq

/-- The "Add icon pack" click handler (lines 81-98), as a function of
the host lowercase map `toLow`, the text input's value and the
external `doesIconPackExist` oracle: empty name returns silently; an
existing normalized name notices "Icon pack already exists." and
aborts; otherwise the directory is created under the normalized name,
the input is cleared, the display refreshed and the success notice
shown. -/
def addIconPackSubmit (toLow : String → String) (name : String)
    (ex : String → Bool) : CreateEffects :=
  if name.length = 0 then ⟨none, [], none, 0⟩
  else
    let normalizedName := normalizeIconPackName toLow name
    if ex normalizedName then ⟨none, ["Icon pack already exists."], none, 0⟩
    else
      ⟨some normalizedName,
       ["Icon pack " ++ name ++ " (" ++ normalizedName ++ ") created."],
       some "", 1⟩

/-- Claim C5: for any host lowercase map, an empty input returns with
no directory-creation call and no notice of any kind; a name for which
`doesIconPackExist` answers true at the normalized name (the host's
lowercasing with whitespace hyphenated) produces exactly the notice
"Icon pack already exists." and aborts with no directory-creation
call, no input clear and no refresh (hence no success notice). -/
theorem c5_creation_rejection (toLow : String → String) (name : String)
    (ex : String → Bool) :
    (name.length = 0 →
      addIconPackSubmit toLow name ex = ⟨none, [], none, 0⟩) ∧
    (name.length ≠ 0 → ex (normalizeIconPackName toLow name) = true →
      addIconPackSubmit toLow name ex
        = ⟨none, ["Icon pack already exists."], none, 0⟩) := by
  constructor
  · intro h
    simp [addIconPackSubmit, h]
  · intro h hex
    simp [addIconPackSubmit, h, hex]

/-- Witness for C5: the empty input with an all-no oracle, and the
input "My Pack" with an all-yes oracle. -/
theorem c5_creation_rejection_witness :
    addIconPackSubmit asciiToLowerCase "" (fun _ => false)
      = ⟨none, [], none, 0⟩ ∧
    addIconPackSubmit asciiToLowerCase "My Pack" (fun _ => true)
      = ⟨none, ["Icon pack already exists."], none, 0⟩ :=
  ⟨(c5_creation_rejection asciiToLowerCase "" (fun _ => false)).1
      (by decide),
   (c5_creation_rejection asciiToLowerCase "My Pack" (fun _ => true)).2
      (by decide) rfl⟩

/-- Claim C6: for any host lowercase map and a non-empty name whose
normalized form does not yet exist, `createCustomIconPackDirectory` is
called with the normalized name, the text input is set to the empty
string, `refreshDisplay` runs exactly once, and the single success
notice contains both the original and the normalized name as
substrings. -/
theorem c6_creation_success (toLow : String → String) (name : String)
    (ex : String → Bool) (h : name.length ≠ 0)
    (hex : ex (normalizeIconPackName toLow name) = false) :
    (addIconPackSubmit toLow name ex).createdDir
        = some (normalizeIconPackName toLow name) ∧
    (addIconPackSubmit toLow name ex).inputSetTo = some "" ∧
    (addIconPackSubmit toLow name ex).refreshCount = 1 ∧
    (addIconPackSubmit toLow name ex).notices
        = ["Icon pack " ++ name ++ " ("
            ++ normalizeIconPackName toLow name ++ ") created."] ∧
    (∃ pre post, "Icon pack " ++ name ++ " ("
        ++ normalizeIconPackName toLow name ++ ") created."
        = pre ++ name ++ post) ∧
    (∃ pre post, "Icon pack " ++ name ++ " ("
        ++ normalizeIconPackName toLow name ++ ") created."
        = pre ++ normalizeIconPackName toLow name ++ post) := by
  refine ⟨?_, ?_, ?_, ?_, ?_, ?_⟩
  · simp [addIconPackSubmit, h, hex]
  · simp [addIconPackSubmit, h, hex]
  · simp [addIconPackSubmit, h, hex]
  · simp [addIconPackSubmit, h, hex]
  · exact ⟨"Icon pack ",
      " (" ++ normalizeIconPackName toLow name ++ ") created.",
      by simp [String.append_assoc]⟩
  · exact ⟨"Icon pack " ++ name ++ " (", ") created.",
      by simp [String.append_assoc]⟩

/-- Witness for C6 at name "My Pack" with an all-no oracle and the
ASCII fragment of the host lowercase map: the directory created is
"my-pack", the input is cleared, one refresh. -/
theorem c6_creation_success_witness :
    (addIconPackSubmit asciiToLowerCase "My Pack" (fun _ => false)).createdDir
        = some "my-pack" ∧
    (addIconPackSubmit asciiToLowerCase "My Pack" (fun _ => false)).inputSetTo
        = some "" ∧
    (addIconPackSubmit asciiToLowerCase "My Pack" (fun _ => false)).refreshCount
        = 1 := by
  have h := c6_creation_success asciiToLowerCase "My Pack" (fun _ => false)
    (by decide) rfl
  exact ⟨by rw [h.1]; decide, h.2.1, h.2.2.1⟩

/-! ## Dropped / selected files and the drop handler (lines 183-209) -/

/-- A file as seen by the handlers: its `name`, its MIME `type` and the
content `readFileSync` yields for it. -/
structure DroppedFile where
  name : String
  type : String
  content : String
deriving Repr, DecidableEq

/-- The accepted MIME type, `'image/svg+xml'` (line 190). -/
def svgMime : String := "image/svg+xml"

/-- The per-file rejection notice (line 191). -/
def notSvgNotice (fileName : String) : String :=
  "File " ++ fileName ++ " is not a SVG file."

/-- Observable effects of one run of the drop handler: arguments of
every `createFile` and `addIconToIconPack` call (pack, file name,
content) in order, every `setDesc` string in order, every `new Notice`
message in order, and the `successful` flag. -/
structure DropEffects where
  creates : List (String × String × String)
  adds : List (String × String × String)
  descs : List String
  notices : List String
  successful : Bool
deriving Repr, DecidableEq

/-- One iteration of the drop handler's `for` loop (lines 188-202):
a file whose type is not `image/svg+xml` yields a notice and
`continue`; otherwise the flag is set, the file is persisted,
registered, and the description updated.  `lenAfter k` is the external
registry's `iconPack.icons.length` as read after `k` registrations of
this run (the registry is an opaque collaborator). -/
def dropStep (pack : String) (lenAfter : Nat → Nat)
    (st : DropEffects) (f : DroppedFile) : DropEffects :=
  if f.type ≠ svgMime then
    { st with notices := st.notices ++ [notSvgNotice f.name] }
  else
    { st with
      successful := true
      creates := st.creates ++ [(pack, f.name, f.content)]
      adds := st.adds ++ [(pack, f.name, f.content)]
      descs := st.descs ++
        ["Total icons: " ++ toString (lenAfter (st.adds.length + 1))
          ++ " (added: " ++ f.name ++ ")"] }

/-- State at entry of the drop handler: no effects, `successful = false`
(line 187). -/
def emptyDropEffects : DropEffects := ⟨[], [], [], [], false⟩

/-- The `drop` event handler (lines 183-209): process
`event.dataTransfer.files` in order, then show the aggregate success
notice iff at least one file was accepted. -/
def dropHandler (pack : String) (lenAfter : Nat → Nat)
    (files : List DroppedFile) : DropEffects :=
  let st := files.foldl (dropStep pack lenAfter) emptyDropEffects
  if st.successful then
    { st with notices := st.notices ++ ["Icons successfully added."] }
  else st

/-- Unfolding the drop loop: registrations are the SVG-typed files in
order, rejection notices are the other files in order, and the flag
records whether any file was SVG-typed. -/
theorem dropStep_foldl (pack : String) (lenAfter : Nat → Nat)
    (files : List DroppedFile) : ∀ st : DropEffects,
    (files.foldl (dropStep pack lenAfter) st).adds
      = st.adds ++ (files.filter (fun f => f.type == svgMime)).map
          (fun f => (pack, f.name, f.content)) ∧
    (files.foldl (dropStep pack lenAfter) st).creates
      = st.creates ++ (files.filter (fun f => f.type == svgMime)).map
          (fun f => (pack, f.name, f.content)) ∧
    (files.foldl (dropStep pack lenAfter) st).notices
      = st.notices ++ (files.filter (fun f => f.type != svgMime)).map
          (fun f => notSvgNotice f.name) ∧
    (files.foldl (dropStep pack lenAfter) st).successful
      = (st.successful || files.any (fun f => f.type == svgMime)) := by
  induction files with
  | nil => intro st; simp
  | cons f fs ih =>
    intro st
    obtain ⟨iha, ihc, ihn, ihs⟩ := ih (dropStep pack lenAfter st f)
    by_cases h : f.type = svgMime
    · refine ⟨?_, ?_, ?_, ?_⟩
      · rw [List.foldl_cons, iha]; simp [dropStep, h]
      · rw [List.foldl_cons, ihc]; simp [dropStep, h]
      · rw [List.foldl_cons, ihn]; simp [dropStep, h]
      · rw [List.foldl_cons, ihs]; simp [dropStep, h]
    · refine ⟨?_, ?_, ?_, ?_⟩
      · rw [List.foldl_cons, iha]; simp [dropStep, h]
      · rw [List.foldl_cons, ihc]; simp [dropStep, h]
      · rw [List.foldl_cons, ihn]; simp [dropStep, h]
      · have hb : (f.type == svgMime) = false := by
          simp only [beq_eq_false_iff_ne, ne_eq]
          exact h
        rw [List.foldl_cons, ihs]; simp [dropStep, h, hb]

/-- Claim C2: a dropped batch of 3 files, exactly 2 of type
`image/svg+xml` and exactly 1 of type `text/plain`, yields exactly one
`createFile` and one `addIconToIconPack` call per accepted file (2
each, the accepted files in order), exactly one "not a SVG file" notice
(the single rejected file's), and exactly one aggregate success notice,
appearing last. -/
theorem c2_drop_batch (pack : String) (lenAfter : Nat → Nat)
    (files : List DroppedFile)
    (hlen : files.length = 3)
    (hsvg : (files.filter (fun f => f.type == svgMime)).length = 2)
    (hplain : (files.filter (fun f => f.type == "text/plain")).length = 1) :
    (dropHandler pack lenAfter files).adds
      = (files.filter (fun f => f.type == svgMime)).map
          (fun f => (pack, f.name, f.content)) ∧
    (dropHandler pack lenAfter files).creates
      = (files.filter (fun f => f.type == svgMime)).map
          (fun f => (pack, f.name, f.content)) ∧
    (dropHandler pack lenAfter files).adds.length = 2 ∧
    (dropHandler pack lenAfter files).creates.length = 2 ∧
    (files.filter (fun f => f.type != svgMime)).length = 1 ∧
    (dropHandler pack lenAfter files).notices
      = (files.filter (fun f => f.type != svgMime)).map
          (fun f => notSvgNotice f.name) ++ ["Icons successfully added."] := by
  obtain ⟨ha, hc, hn, hs⟩ := dropStep_foldl pack lenAfter files emptyDropEffects
  have hany : files.any (fun f => f.type == svgMime) = true := by
    have hpos : 0 < (files.filter (fun f => f.type == svgMime)).length := by
      omega
    obtain ⟨g, hg⟩ := List.exists_mem_of_length_pos hpos
    obtain ⟨hg1, hg2⟩ := List.mem_filter.mp hg
    exact List.any_eq_true.mpr ⟨g, hg1, hg2⟩
  have hsucc : (files.foldl (dropStep pack lenAfter) emptyDropEffects).successful
      = true := by
    rw [hs, hany]
    simp [emptyDropEffects]
  have hrej : (files.filter (fun f => f.type != svgMime)).length = 1 := by
    have key : files.length
        = (files.filter (fun f => f.type == svgMime)).length
          + (files.filter (fun f => f.type != svgMime)).length :=
      List.length_eq_length_filter_add (fun f : DroppedFile => f.type == svgMime)
    omega
  refine ⟨?_, ?_, ?_, ?_, hrej, ?_⟩
  · simp only [dropHandler]
    rw [if_pos hsucc]
    simp only [ha]
    simp [emptyDropEffects]
  · simp only [dropHandler]
    rw [if_pos hsucc]
    simp only [hc]
    simp [emptyDropEffects]
  · simp only [dropHandler]
    rw [if_pos hsucc]
    simp only [ha]
    simp [emptyDropEffects, hsvg]
  · simp only [dropHandler]
    rw [if_pos hsucc]
    simp only [hc]
    simp [emptyDropEffects, hsvg]
  · simp only [dropHandler]
    rw [if_pos hsucc]
    simp only [hn]
    simp [emptyDropEffects]

/-- A concrete 3-file drop batch: two SVG files and one plain-text
file. -/
def dropDemoFiles : List DroppedFile :=
  [⟨"a.svg", "image/svg+xml", "<svg>A</svg>"⟩,
   ⟨"note.txt", "text/plain", "hello"⟩,
   ⟨"b.svg", "image/svg+xml", "<svg>B</svg>"⟩]

/-- Witness for C2 on `dropDemoFiles`. -/
theorem c2_drop_batch_witness :
    (dropDemoFiles.filter (fun f => f.type == svgMime)).length = 2 ∧
    (dropHandler "foo" id dropDemoFiles).adds
      = (dropDemoFiles.filter (fun f => f.type == svgMime)).map
          (fun f => ("foo", f.name, f.content)) :=
  ⟨by decide,
   (c2_drop_batch "foo" id dropDemoFiles (by decide) (by decide)
      (by decide)).1⟩

/-- Claim C10: a drop event with an empty file list registers nothing -
no `createFile`, no `addIconToIconPack`, no description update, no
notice of any kind - and leaves the `successful` flag false. -/
theorem c10_empty_drop (pack : String) (lenAfter : Nat → Nat) :
    dropHandler pack lenAfter [] = ⟨[], [], [], [], false⟩ := rfl

/-! ## File-picker onchange handler (lines 115-125) -/

/-- Observable effects of one run of the file-picker `onchange`
handler: `createFile` and `addIconToIconPack` call arguments in order,
`setDesc` strings in order, notice messages in order. -/
structure PickerEffects where
  creates : List (String × String × String)
  adds : List (String × String × String)
  descs : List String
  notices : List String
deriving Repr, DecidableEq

/-- One iteration of the picker loop (lines 117-122): read the file,
persist it via `createFile`, register it via `addIconToIconPack` - with
no condition on the file whatsoever. -/
def pickerStep (pack : String) (st : PickerEffects) (f : DroppedFile) :
    PickerEffects :=
  { st with
    creates := st.creates ++ [(pack, f.name, f.content)]
    adds := st.adds ++ [(pack, f.name, f.content)] }

/-- The `onchange` handler (lines 115-125): process `target.files` in
order, then set the description to the batch count and show the count
notice. -/
def pickerOnChange (pack : String) (files : List DroppedFile) :
    PickerEffects :=
  let st := files.foldl (pickerStep pack) ⟨[], [], [], []⟩
  { st with
    descs := st.descs ++ [toString files.length ++ " icons"]
    notices := st.notices ++ [toString files.length ++ " icons added."] }

/-- Unfolding the picker loop: every file is persisted and registered,
in order, and the loop itself emits no description and no notice. -/
theorem pickerStep_foldl (pack : String) (files : List DroppedFile) :
    ∀ st : PickerEffects,
    (files.foldl (pickerStep pack) st).creates
      = st.creates ++ files.map (fun f => (pack, f.name, f.content)) ∧
    (files.foldl (pickerStep pack) st).adds
      = st.adds ++ files.map (fun f => (pack, f.name, f.content)) ∧
    (files.foldl (pickerStep pack) st).descs = st.descs ∧
    (files.foldl (pickerStep pack) st).notices = st.notices := by
  induction files with
  | nil => intro st; simp
  | cons f fs ih =>
    intro st
    obtain ⟨ihc, iha, ihd, ihn⟩ := ih (pickerStep pack st f)
    refine ⟨?_, ?_, ?_, ?_⟩
    · rw [List.foldl_cons, ihc]; simp [pickerStep]
    · rw [List.foldl_cons, iha]; simp [pickerStep]
    · rw [List.foldl_cons, ihd]; simp [pickerStep]
    · rw [List.foldl_cons, ihn]; simp [pickerStep]

/-- Claim C9: the file-picker addition path reads, persists
(`createFile`) and registers (`addIconToIconPack`) every selected file
in order, with no per-file MIME or extension check: every file - of any
`type` - is registered, and the only notice is the batch-count notice,
never a rejection notice. -/
theorem c9_picker_no_type_check (pack : String) (files : List DroppedFile) :
    (pickerOnChange pack files).creates
      = files.map (fun f => (pack, f.name, f.content)) ∧
    (pickerOnChange pack files).adds
      = files.map (fun f => (pack, f.name, f.content)) ∧
    (pickerOnChange pack files).descs = [toString files.length ++ " icons"] ∧
    (pickerOnChange pack files).notices
      = [toString files.length ++ " icons added."] ∧
    (∀ f ∈ files, (pack, f.name, f.content) ∈ (pickerOnChange pack files).adds) := by
  obtain ⟨hc, ha, hd, hn⟩ := pickerStep_foldl pack files ⟨[], [], [], []⟩
  refine ⟨?_, ?_, ?_, ?_, ?_⟩
  · simp only [pickerOnChange]
    rw [hc]
    rfl
  · simp only [pickerOnChange]
    rw [ha]
    rfl
  · simp only [pickerOnChange]
    rw [hd]
    rfl
  · simp only [pickerOnChange]
    rw [hn]
    rfl
  · intro f hf
    simp only [pickerOnChange]
    rw [ha]
    simp only [List.nil_append]
    exact List.mem_map_of_mem (fun f => (pack, f.name, f.content)) hf

/-! ## Refresh handler (lines 132-145) -/

/-- JavaScript `str.split(sep)` for a one-character separator, on the
character list: always at least one (possibly empty) group, a group
boundary at every separator occurrence. -/
def splitOnChar (sep : Char) : List Char → List (List Char)
  | [] => [[]]
  | c :: cs =>
    let r := splitOnChar sep cs
    if c = sep then [] :: r
    else
      match r with
      | [] => [[c]]
      | g :: gs => (c :: g) :: gs

/-- `fileName.split('/').pop()`: the final segment of the path
(line 140).  `split` always yields a non-empty array, so `pop` is its
last element. -/
def basename (path : String) : String :=
  ((splitOnChar '/' path.data).map String.mk).getLastD ""

/-- Observable effects of one run of the refresh handler: `setDesc`
strings in order, `addIconToIconPack` call arguments in order, notice
messages in order. -/
structure RefreshEffects where
  descs : List String
  adds : List (String × String × String)
  notices : List String
deriving Repr, DecidableEq

/-- The refresh click handler (lines 132-145): set the loading
placeholder, list the pack's directory (`files`, supplied by the
external `getFilesInIconPackDirectory`), register each file's content
under the path's final segment in listing order (`read` is the
external `vault.adapter.read`), then show the refreshed notice and set
the final count description. -/
def refreshIconPack (pack : String) (read : String → String)
    (files : List String) : RefreshEffects :=
  let adds := files.foldl
    (fun acc fileName => acc ++ [(pack, basename fileName, read fileName)]) []
  { descs := ["Loading icons...", toString files.length ++ " icons"]
    adds := adds
    notices := ["Icon pack " ++ pack ++ " refreshed."] }

/-- Claim C8: on a refresh whose directory listing is
`["/packs/foo/a.svg", "/packs/foo/b.svg"]`, exactly the icon names
`"a.svg"` and `"b.svg"` - the final path segments, in listing order -
are registered via `addIconToIconPack` (with the externally read
contents), and the final description is `"2 icons"`. -/
theorem c8_refresh_basenames (read : String → String) :
    (refreshIconPack "foo" read ["/packs/foo/a.svg", "/packs/foo/b.svg"]).adds
      = [("foo", "a.svg", read "/packs/foo/a.svg"),
         ("foo", "b.svg", read "/packs/foo/b.svg")] ∧
    ((refreshIconPack "foo" read
        ["/packs/foo/a.svg", "/packs/foo/b.svg"]).adds.map
          (fun t => t.2.1)) = ["a.svg", "b.svg"] ∧
    (refreshIconPack "foo" read
        ["/packs/foo/a.svg", "/packs/foo/b.svg"]).descs.getLast?
      = some "2 icons" := by
  refine ⟨?_, ?_, ?_⟩ <;> rfl

/-- Witness for C9: a single selected file of MIME type `text/plain`
is still persisted and registered, with no rejection notice. -/
theorem c9_picker_no_type_check_witness :
    (pickerOnChange "foo" [⟨"note.txt", "text/plain", "T"⟩]).adds
      = [("foo", "note.txt", "T")] ∧
    ("foo", "note.txt", "T")
      ∈ (pickerOnChange "foo" [⟨"note.txt", "text/plain", "T"⟩]).adds ∧
    (pickerOnChange "foo" [⟨"note.txt", "text/plain", "T"⟩]).notices
      = ["1 icons added."] := by
  refine ⟨?_, ?_, ?_⟩
  · exact (c9_picker_no_type_check "foo" [⟨"note.txt", "text/plain", "T"⟩]).2.1
  · exact (c9_picker_no_type_check "foo"
      [⟨"note.txt", "text/plain", "T"⟩]).2.2.2.2
      ⟨"note.txt", "text/plain", "T"⟩ (by simp)
  · exact (c9_picker_no_type_check "foo" [⟨"note.txt", "text/plain", "T"⟩]).2.2.2.1
